import Mathlib

/-!
Shallow embedding of the two scripts of this repository:
`scripts/check_error_tolerance.py` (static auditor) and
`scripts/run_rust_tests.py` (test-execution wrapper).

Lines of text are modelled as `List Char`.  The scripts split captured
output and file contents on the newline character before matching, so the
per-line matchers below are applied to newline-free strings; regex
constructs are translated to executable character-list scanners with the
same search/backtracking semantics on such inputs.  Each translated `re`
pattern is kept next to its scanner.  Python string indexing/slicing is by
code point, matching `List Char` operations.  The `\w`, `[a-z_]`, `[0-9]`
and whitespace classes are modelled on their ASCII fragment, which covers
every token the patterns can match.
-/

namespace Scripts

/-- Characters stripped by Python `str.strip()` and matched by the regex
class `\s` (ASCII fragment). -/
def isPyWs (c : Char) : Bool :=
  c == ' ' || c == '\t' || c == '\n' || c == '\r' || c == '\x0b' || c == '\x0c'

/-- Python `str.strip()`: drop leading and trailing whitespace. -/
def pyStrip (s : List Char) : List Char :=
  ((s.dropWhile isPyWs).reverse.dropWhile isPyWs).reverse

/-- Python substring containment `needle in hay`. -/
def containsSub (needle : List Char) : List Char → Bool
  | [] => needle.isEmpty
  | c :: rest => needle.isPrefixOf (c :: rest) || containsSub needle rest

/-- Python `str.split` on the newline character. -/
def splitOnNl : List Char → List (List Char)
  | [] => [[]]
  | c :: rest =>
    if c == '\n' then [] :: splitOnNl rest
    else
      match splitOnNl rest with
      | l :: ls => (c :: l) :: ls
      | [] => [[c]]

/-- Regex class `\w` (ASCII fragment). -/
def isWordChar (c : Char) : Bool := c.isAlphanum || c == '_'

/-- Regex class `[a-z_]`. -/
def isLowerUnd (c : Char) : Bool := c.isLower || c == '_'

/-- Regex class `[0-9]`. -/
def isDigitCh (c : Char) : Bool := c.isDigit

/-- `re.search` position sweep: try the predicate at every suffix. -/
def searchAt (f : List Char → Bool) : List Char → Bool
  | [] => f []
  | c :: rest => f (c :: rest) || searchAt f rest

/-! ###  The eleven `CHECK_PATTERNS` matchers of check_error_tolerance.py  -/

/-- The lookahead body `\s*//.*测试|test` of the `unwrap()` rule: true when
either alternative matches at the start of `s`. -/
def unwrapLookaheadHit (s : List Char) : Bool :=
  (let t := s.dropWhile isPyWs
   "//".data.isPrefixOf t && containsSub "测试".data (t.drop 2))
  || "test".data.isPrefixOf s

/-- One position of `\bunwrap\(\)(?!\s*//.*测试|test)`: word boundary before
`unwrap()` (previous character absent or not a word character), then the
negative lookahead. -/
def matchUnwrapAt (prev : Option Char) (s : List Char) : Bool :=
  "unwrap()".data.isPrefixOf s
  && (match prev with
      | none => true
      | some c => !(isWordChar c))
  && !(unwrapLookaheadHit (s.drop 8))

/-- Sweep for the `unwrap()` rule, carrying the previous character for the
word-boundary test. -/
def searchUnwrap : Option Char → List Char → Bool
  | _, [] => false
  | prev, c :: rest => matchUnwrapAt prev (c :: rest) || searchUnwrap (some c) rest

/-- Rule `unwrap()`: `\bunwrap\(\)(?!\s*//.*测试|test)`. -/
def ruleUnwrap (line : List Char) : Bool := searchUnwrap none line

/-- Rule `unwrap_or_default`: `\.unwrap_or_default\(\)`. -/
def ruleUnwrapOrDefault (line : List Char) : Bool :=
  containsSub ".unwrap_or_default()".data line

/-- `[^)]+\)`: at least one character before the first closing parenthesis. -/
def nonEmptyThenClose (s : List Char) : Bool :=
  match s with
  | [] => false
  | c :: rest => !(c == ')') && rest.contains ')'

/-- Rule `unwrap_or`: `\.unwrap_or\([^)]+\)`. -/
def ruleUnwrapOr (line : List Char) : Bool :=
  searchAt (fun s => ".unwrap_or(".data.isPrefixOf s && nonEmptyThenClose (s.drop 11)) line

/-- `\)[;$]` somewhere in `s`: a closing parenthesis immediately followed by
a semicolon or a literal dollar sign (the `$` inside the class is literal). -/
def hasCloseThenTerm : List Char → Bool
  | ')' :: c :: rest => c == ';' || c == '$' || hasCloseThenTerm (c :: rest)
  | _ :: rest => hasCloseThenTerm rest
  | [] => false

/-- Tail of the `let _ =` rule after the literal `let`:
`\s+_\s*=\s*[a-z_]+\(.*\)[;$]`. -/
def letIgnoreTail (s : List Char) : Bool :=
  let t := s.dropWhile isPyWs
  decide (t.length < s.length)
  && (match t with
      | '_' :: t1 =>
        (match t1.dropWhile isPyWs with
         | '=' :: t3 =>
           let t4 := t3.dropWhile isPyWs
           let idlen := (t4.takeWhile isLowerUnd).length
           decide (1 ≤ idlen)
           && (match t4.drop idlen with
               | '(' :: t5 => hasCloseThenTerm t5
               | _ => false)
         | _ => false)
      | _ => false)

/-- Rule `let _ =`: `let\s+_\s*=\s*[a-z_]+\(.*\)[;$]`. -/
def ruleLetUnderscore (line : List Char) : Bool :=
  searchAt (fun s => "let".data.isPrefixOf s && letIgnoreTail (s.drop 3)) line

/-- Argument tail of the `assert!` rule: `[^,)]+(,[^)]+)?\)`. -/
def assertArgsTail (s : List Char) : Bool :=
  let seg := s.takeWhile (fun c => !(c == ',') && !(c == ')'))
  decide (1 ≤ seg.length)
  && (match s.drop seg.length with
      | ')' :: _ => true
      | ',' :: r2 => nonEmptyThenClose r2
      | _ => false)

/-- Rule `assert!`: `assert!\([^,)]+(,[^)]+)?\)`. -/
def ruleAssert (line : List Char) : Bool :=
  searchAt (fun s => "assert!(".data.isPrefixOf s && assertArgsTail (s.drop 8)) line

/-- `[^"]\x7b0,n\x7d"\)`: at most `bound` non-quote characters, then a
closing quote immediately followed by a closing parenthesis. -/
def quotedBoundedThenParen (bound : Nat) (s : List Char) : Bool :=
  let q := s.takeWhile (fun c => !(c == '"'))
  decide (q.length ≤ bound)
  && (match s.drop q.length with
      | '"' :: ')' :: _ => true
      | _ => false)

/-- Rule `expect_short`: `\.expect\("[^"]\x7b0,20\x7d"\)`. -/
def ruleExpectShort (line : List Char) : Bool :=
  searchAt (fun s => ".expect(\"".data.isPrefixOf s && quotedBoundedThenParen 20 (s.drop 9)) line

/-- Rule `panic_short`: `panic!\("[^"]\x7b0,30\x7d"\)`. -/
def rulePanicShort (line : List Char) : Bool :=
  searchAt (fun s => "panic!(\"".data.isPrefixOf s && quotedBoundedThenParen 30 (s.drop 8)) line

/-- Rule `ok()`: `\.ok\(\)\s*;`. -/
def ruleOkSemicolon (line : List Char) : Bool :=
  searchAt (fun s => ".ok()".data.isPrefixOf s
      && (match (s.drop 5).dropWhile isPyWs with
          | ';' :: _ => true
          | _ => false)) line

/-- Rule `parse().unwrap`: `\.parse\(\)\.unwrap\(\)`. -/
def ruleParseUnwrap (line : List Char) : Bool :=
  containsSub ".parse().unwrap()".data line

/-- One position of `[a-z_]+\[[0-9]+\](?!\s*=)`. -/
def directIndexAt (s : List Char) : Bool :=
  let idlen := (s.takeWhile isLowerUnd).length
  decide (1 ≤ idlen)
  && (match s.drop idlen with
      | '[' :: r1 =>
        let dlen := (r1.takeWhile isDigitCh).length
        decide (1 ≤ dlen)
        && (match r1.drop dlen with
            | ']' :: r2 =>
              (match r2.dropWhile isPyWs with
               | '=' :: _ => false
               | _ => true)
            | _ => false)
      | _ => false)

/-- Rule `direct_index`: `[a-z_]+\[[0-9]+\](?!\s*=)`. -/
def ruleDirectIndex (line : List Char) : Bool := searchAt directIndexAt line

/-- Rule `todo!`: `(todo|unimplemented)!\(`. -/
def ruleTodo (line : List Char) : Bool :=
  containsSub "todo!(".data line || containsSub "unimplemented!(".data line

/-! ###  Data model of check_error_tolerance.py  -/

/-- The `Severity` enumeration with its display values. -/
inductive Severity where
  | HIGH
  | MEDIUM
  | LOW
  deriving BEq, DecidableEq, Repr

/-- Display value of each severity member. -/
def Severity.value : Severity → String
  | .HIGH => "🔴 高严重度"
  | .MEDIUM => "🟡 中严重度"
  | .LOW => "🟢 低严重度"

/-- The `Issue` dataclass. -/
structure Issue where
  file_path : String
  line_number : Nat
  line_content : String
  severity : Severity
  category : String
  risk : String
  suggestion : String
  exampleText : String
  deriving BEq, DecidableEq, Repr

/-- One entry of the `CHECK_PATTERNS` table: the rule name (dictionary key),
the regex source text, its translated search semantics, and the
severity/category/risk/suggestion/example configuration. -/
structure Rule where
  name : String
  pattern : String
  matchesLine : List Char → Bool
  severity : Severity
  category : String
  risk : String
  suggestion : String
  exampleText : String

/-- The `CHECK_PATTERNS` catalog, in dictionary insertion order. -/
def CHECK_PATTERNS : List Rule := [
  { name := "unwrap()",
    pattern := "\\bunwrap\\(\\)(?!\\s*//.*测试|test)",
    matchesLine := ruleUnwrap,
    severity := .HIGH,
    category := "unwrap() 的过度使用",
    risk := "生产环境中直接 panic，无法优雅降级",
    suggestion := "使用 ? 操作符传播错误，或使用 map_err 添加错误上下文",
    exampleText := "// ❌ 危险\nlet user_id = get_user_id().unwrap();\n\n// ✅ 更好\nlet user_id = get_user_id()\n    .map_err(|e| Error::UserIdNotFound(e))?;" },
  { name := "unwrap_or_default",
    pattern := "\\.unwrap_or_default\\(\\)",
    matchesLine := ruleUnwrapOrDefault,
    severity := .HIGH,
    category := "不当的 unwrap_or_default()",
    risk := "可能掩盖真实错误，导致业务逻辑错误",
    suggestion := "金额、余额、状态等字段必须显式处理错误",
    exampleText := "// ❌ 余额查询失败返回 0\nlet balance = query_balance(user_id).unwrap_or_default();\n\n// ✅ 明确处理错误\nlet balance = query_balance(user_id)\n    .map_err(|e| \x7b\n        log::error!(\"Failed to query balance for \x7b:?\x7d: \x7b:?\x7d\", user_id, e);\n        Error::BalanceQueryFailed\n    \x7d)?;" },
  { name := "unwrap_or",
    pattern := "\\.unwrap_or\\([^)]+\\)",
    matchesLine := ruleUnwrapOr,
    severity := .HIGH,
    category := "不当的 unwrap_or()",
    risk := "网络错误、配置错误被掩盖为默认值",
    suggestion := "使用 Result 传播错误，或在启动时明确失败",
    exampleText := "// ❌ 网络错误被掩盖\nlet price = fetch_price().unwrap_or(old_price);\n\n// ✅ 启动时明确失败\nlet price = fetch_price().await\n    .map_err(|e| Error::PriceFetchFailed \x7b context: e \x7d)?;" },
  { name := "let _ =",
    pattern := "let\\s+_\\s*=\\s*[a-z_]+\\(.*\\)[;$]",
    matchesLine := ruleLetUnderscore,
    severity := .HIGH,
    category := "let _ = 忽略 must_use 值",
    risk := "忽略重要返回值，导致资源泄漏或逻辑错误",
    suggestion := "显式处理返回值，或使用 semicolon 表示有意识丢弃",
    exampleText := "// ❌ 忽略事务提交结果\nlet _ = tx.commit();\n\n// ✅ 显式处理\ntx.commit()?;" },
  { name := "assert!",
    pattern := "assert!\\([^,)]+(,[^)]+)?\\)",
    matchesLine := ruleAssert,
    severity := .HIGH,
    category := "assert! 在生产代码中",
    risk := "release 模式下被优化掉，debug 模式才 panic",
    suggestion := "使用 if 语句检查并返回错误，或使用 debug_assert!",
    exampleText := "// ❌ release 模式下不检查\nassert!(amount > 0, \"Amount must be positive\");\n\n// ✅ 运行时始终检查\nif amount <= 0 \x7b\n    return Err(Error::InvalidAmount \x7b amount \x7d);\n\x7d" },
  { name := "expect_short",
    pattern := "\\.expect\\(\"[^\"]\x7b0,20\x7d\"\\)",
    matchesLine := ruleExpectShort,
    severity := .MEDIUM,
    category := "expect() 缺少有用的错误信息",
    risk := "panic 时缺少调试上下文，难以定位问题",
    suggestion := "包含足够的上下文（地址、ID、参数等）",
    exampleText := "// ❌ 信息不足\nlet config = load_config().expect(\"failed\");\n\n// ✅ 包含上下文\nlet config = load_config().expect(\n    \"Failed to load config from CONFIG_PATH env var\"\n);" },
  { name := "panic_short",
    pattern := "panic!\\(\"[^\"]\x7b0,30\x7d\"\\)",
    matchesLine := rulePanicShort,
    severity := .MEDIUM,
    category := "panic! 使用不当",
    risk := "panic 信息不完整，调试困难",
    suggestion := "包含请求参数、时间戳、地址等调试信息",
    exampleText := "// ❌ 缺少上下文\npanic!(\"Invalid state\");\n\n// ✅ 包含调试信息\npanic!(\n    \"Invalid state: expected Active, got \x7b:?\x7d for order \x7b\x7d\",\n    state, order_id\n);" },
  { name := "ok()",
    pattern := "\\.ok\\(\\)\\s*;",
    matchesLine := ruleOkSemicolon,
    severity := .MEDIUM,
    category := "ok() 静默忽略错误",
    risk := "错误被悄无声息地忽略，可能导致后续问题",
    suggestion := "至少记录日志，或使用 inspect_err",
    exampleText := "// ❌ 错误被吞掉\nlet result = some_operation().ok();\n\n// ✅ 至少记录日志\nif let Err(e) = some_operation() \x7b\n    log::warn!(\"Operation failed: \x7b:?\x7d\", e);\n\x7d" },
  { name := "parse().unwrap",
    pattern := "\\.parse\\(\\)\\.unwrap\\(\\)",
    matchesLine := ruleParseUnwrap,
    severity := .MEDIUM,
    category := "parse().unwrap() 模式",
    risk := "字符串解析失败导致 panic",
    suggestion := "优雅处理解析错误，提供清晰的错误消息",
    exampleText := "// ❌ 解析失败 panic\nlet port: u16 = env::var(\"PORT\").unwrap().parse().unwrap();\n\n// ✅ 优雅处理错误\nlet port: u16 = env::var(\"PORT\")\n    .map_err(|e| Error::ConfigMissing(\"PORT\".into()))?\n    .parse()\n    .map_err(|e| Error::ConfigInvalid \x7b\n        key: \"PORT\",\n        value: env::var(\"PORT\").unwrap_or_default(),\n        source: e,\n    \x7d)?;" },
  { name := "direct_index",
    pattern := "[a-z_]+\\[[0-9]+\\](?!\\s*=)",
    matchesLine := ruleDirectIndex,
    severity := .MEDIUM,
    category := "未经检查的数组/Vec 访问",
    risk := "越界访问导致 panic",
    suggestion := "使用 .get()、.first()、.last() 等安全方法",
    exampleText := "// ❌ 可能 panic\nlet item = items[0];\n\n// ✅ 安全访问\nlet item = items.get(0).ok_or(Error::EmptyList)?;\n\n// ✅ 或使用迭代器\nlet item = items.first().ok_or(Error::EmptyList)?;" },
  { name := "todo!",
    pattern := "(todo|unimplemented)!\\(",
    matchesLine := ruleTodo,
    severity := .LOW,
    category := "todo!() 和 unimplemented!() 在生产代码",
    risk := "功能未完成，执行到时会 panic",
    suggestion := "返回明确的错误，或添加 #[cfg(test)] 条件",
    exampleText := "// ❌ 生产代码中未完成\nfn complex_feature(input: Input) -> Output \x7b\n    todo!()\n\x7d\n\n// ✅ 返回明确的错误\nfn complex_feature(input: Input) -> Result<Output, Error> \x7b\n    Err(Error::NotImplemented \x7b\n        feature: \"complex_feature\".into()\n    \x7d)\n\x7d" }]

/-! ###  The line scanner (`check_rust_file`)  -/

/-- Line eligibility: the exclusion tests of `check_rust_file` — a stripped
line starting with `//` is skipped, and a line containing the test-only
markers is skipped. -/
def eligibleLine (line : List Char) : Bool :=
  !("//".data.isPrefixOf (pyStrip line))
  && !(containsSub "#[test]".data line)
  && !(containsSub "#test".data line)

/-- The `Issue` appended for one rule match. -/
def mkIssue (fp : String) (n : Nat) (line : List Char) (r : Rule) : Issue :=
  { file_path := fp, line_number := n, line_content := String.mk (pyStrip line),
    severity := r.severity, category := r.category, risk := r.risk,
    suggestion := r.suggestion, exampleText := r.exampleText }

/-- The inner rule loop of `check_rust_file`: every pattern of the catalog is
tried against the line, appending an issue per match. -/
def scanPatterns (fp : String) (n : Nat) (line : List Char) : List Rule → List Issue
  | [] => []
  | r :: rs =>
    if r.matchesLine line then mkIssue fp n line r :: scanPatterns fp n line rs
    else scanPatterns fp n line rs

/-- Issues produced by one line of a file. -/
def lineIssues (fp : String) (n : Nat) (line : List Char) : List Issue :=
  if eligibleLine line then scanPatterns fp n line CHECK_PATTERNS else []

/-- The line loop of `check_rust_file`, `n` is the 1-based number of the
first remaining line. -/
def checkLinesFrom (fp : String) : Nat → List (List Char) → List Issue
  | _, [] => []
  | n, l :: ls => lineIssues fp n l ++ checkLinesFrom fp (n + 1) ls

/-- `check_rust_file`: scan one file, given its path and its lines (the file
read itself is external input). -/
def check_rust_file (fp : String) (lines : List (List Char)) : List Issue :=
  checkLinesFrom fp 1 lines

/-! ###  Report generation (`format_report`) and auditor `main`  -/

/-- Lexicographic order on code points, the order Python uses to compare
strings in `sorted`. -/
def listCharLe : List Char → List Char → Bool
  | [], _ => true
  | _ :: _, [] => false
  | a :: as_, b :: bs =>
    if a.val < b.val then true
    else if b.val < a.val then false
    else listCharLe as_ bs

/-- String comparison used when sorting the per-file groups. -/
def strLe (a b : String) : Bool := listCharLe a.data b.data

/-- Stable insertion used by `sortStrs`. -/
def insertStr (x : String) : List String → List String
  | [] => [x]
  | y :: ys => if strLe x y then x :: y :: ys else y :: insertStr x ys

/-- Stable sort of file-path keys (Python `sorted` on the dictionary items;
the keys are distinct so only the key ordering matters). -/
def sortStrs : List String → List String
  | [] => []
  | x :: xs => insertStr x (sortStrs xs)

/-- First-occurrence list of keys, as produced by inserting into a Python
dictionary while iterating. -/
def dedupKeys : List String → List String
  | [] => []
  | x :: xs => x :: (dedupKeys xs).filter (fun y => !(y == x))

/-- Grouping of one severity block by file path: dictionary built in issue
order, then its items sorted by key. -/
def groupByFileSorted (issues : List Issue) : List (String × List Issue) :=
  (sortStrs (dedupKeys (issues.map (fun i => i.file_path)))).map
    (fun f => (f, issues.filter (fun i => i.file_path == f)))

/-- The per-issue block of the report. -/
def issueLines (issue : Issue) : List String :=
  ["- **行 " ++ toString issue.line_number ++ "**: `" ++ issue.line_content ++ "`",
   "  - **类别**: " ++ issue.category,
   "  - **风险**: " ++ issue.risk,
   "  - **建议**: " ++ issue.suggestion]
  ++ (if issue.exampleText == "" then []
      else ["  - **示例**:", "    ```rust"]
        ++ (splitOnNl issue.exampleText.data).map (fun l => "    " ++ String.mk l)
        ++ ["    ```"])
  ++ [""]

/-- The block of the report for one severity level. -/
def severityBlock (sev : Severity) (sevIssues : List Issue) : List String :=
  if sevIssues.isEmpty then []
  else
    ("\n## " ++ sev.value ++ "\n")
    :: ((groupByFileSorted sevIssues).map (fun fg =>
          ("\n### 文件: `" ++ fg.1 ++ "`\n") :: (fg.2.map issueLines).flatten)).flatten

/-- `format_report`: deterministic rendering of the auditor findings. -/
def format_report (issues : List Issue) : String :=
  if issues.isEmpty then "✅ 未发现错误容忍问题！"
  else
    let highs := issues.filter (fun i => i.severity == Severity.HIGH)
    let meds := issues.filter (fun i => i.severity == Severity.MEDIUM)
    let lows := issues.filter (fun i => i.severity == Severity.LOW)
    let header := ["# Rust 错误容忍检查报告\n",
                   "共发现 " ++ toString issues.length ++ " 个问题\n"]
    let summary := ["\n---\n", "## 📊 汇总统计\n\n",
                    "| 严重度 | 问题数量 | 优先级 |",
                    "|--------|----------|--------|",
                    "| 🔴 高 | " ++ toString highs.length ++ " | P0 - 立即修复 |",
                    "| 🟡 中 | " ++ toString meds.length ++ " | P1 - 尽快修复 |",
                    "| 🟢 低 | " ++ toString lows.length ++ " | P2 - 改进代码质量 |"]
    String.intercalate "\n"
      (header ++ severityBlock Severity.HIGH highs ++ severityBlock Severity.MEDIUM meds
        ++ severityBlock Severity.LOW lows ++ summary)

/-- All issues of a scan, files visited in discovery order. -/
def allIssues (files : List (String × List (List Char))) : List Issue :=
  (files.map (fun f => check_rust_file f.1 f.2)).flatten

/-- Exit status of the auditor `main`, given the discovered files with their
lines (path checking and file discovery are external input): `0` when no
file was found, otherwise `1` exactly on a high-severity issue, `0` in the
two remaining branches. -/
def auditor_main (files : List (String × List (List Char))) : Nat :=
  if files.isEmpty then 0
  else
    let all_issues := allIssues files
    let high_issues := all_issues.filter (fun i => i.severity == Severity.HIGH)
    if !high_issues.isEmpty then 1
    else if !all_issues.isEmpty then 0
    else 0

/-! ###  Data model of run_rust_tests.py  -/

/-- The `TestStatus` enumeration with its display values. -/
inductive TestStatus where
  | PASSED
  | FAILED
  | IGNORED
  | TIMEOUT
  deriving BEq, DecidableEq, Repr

/-- Display value of each status member. -/
def TestStatus.value : TestStatus → String
  | .PASSED => "✅ 通过"
  | .FAILED => "❌ 失败"
  | .IGNORED => "⚠️  忽略"
  | .TIMEOUT => "⏱️  超时"

/-- The `TestResult` dataclass.  The source declares `duration` as a float
that is always set to the literal `0.0`; it is modelled as a natural
number. -/
structure TestResult where
  test_name : String
  status : TestStatus
  duration : Nat
  error_message : String := ""
  error_type : String := ""
  suggestion : String := ""
  fixable : Bool := false
  deriving BEq, DecidableEq, Repr

/-! ###  run_command  -/

/-- Outcome of the external `subprocess.run` call, which is an external
collaborator: the process completed with captured output, the
caller-supplied timeout expired, or the spawn/execution raised. -/
inductive ProcResult where
  | completed (returncode : Int) (stdout stderr : String)
  | timedOut
  | raised (msg : String)

/-- `run_command`: returns `(exit_code, stdout, stderr)`; a timeout becomes
`(-1, "", message)` and any other exception becomes `(-1, "", text)`. -/
def run_command (pr : ProcResult) (timeout : Nat) : Int × String × String :=
  match pr with
  | .completed rc out err => (rc, out, err)
  | .timedOut => (-1, "", "Command timed out after " ++ toString timeout ++ " seconds")
  | .raised msg => (-1, "", msg)

/-! ###  parse_test_output  -/

/-- Tail `(?:\s+(.+))?$` of the result-line regex, applied after the status
word: returns the trailing-detail group (empty when the optional group is
absent), or `none` when the tail cannot match. -/
def matchTailAfterStatus (w : List Char) : Option (List Char) :=
  if w.isEmpty then some []
  else
    let k := (w.takeWhile isPyWs).length
    if k == 0 then none
    else if !(w.drop k).isEmpty then some (w.drop k)
    else if 2 ≤ k then some (w.drop (k - 1))
    else none

/-- Lazy sweep of the group `(.+?)` of the result-line regex: shortest name
first, then `\s+\.\.\.` and the status word `(\w+)` and the optional tail.
Returns `(name, status word, trailing detail)`. -/
def matchFromName (t : List Char) : Option (List Char × List Char × List Char) :=
  (List.range t.length).findSome? fun i =>
    let g1 := t.take (i + 1)
    let u := t.drop (i + 1)
    let b := (u.takeWhile isPyWs).length
    if decide (1 ≤ b) && "...".data.isPrefixOf (u.drop b) then
      let v := u.drop (b + 3)
      let g2 := v.takeWhile isWordChar
      if decide (1 ≤ g2.length) then
        match matchTailAfterStatus (v.drop g2.length) with
        | some g3 => some (g1, g2, g3)
        | none => none
      else none
    else none

/-- `re.match` of `^test\s+(.+?)\s+\.\.\.(\w+)(?:\s+(.+))?$` against the
stripped line: the literal `test`, one or more whitespace characters
(longest first), then the name sweep. -/
def parseResultLine (raw : List Char) : Option (List Char × List Char × List Char) :=
  let s := pyStrip raw
  if "test".data.isPrefixOf s then
    let t0 := s.drop 4
    let maxA := (t0.takeWhile isPyWs).length
    (List.range maxA).findSome? fun d => matchFromName (t0.drop (maxA - d))
  else none

/-- Status mapping of `parse_test_output`: `ok` passes, `FAILED` fails,
`ignored` or `should panic` is ignored, any other recognized word fails.
(The `should panic` comparison is dead: the word group never contains a
space; it is kept as the source writes it.) -/
def statusOfToken (g2 : List Char) : TestStatus :=
  if g2 == "ok".data then .PASSED
  else if g2 == "FAILED".data then .FAILED
  else if g2 == "ignored".data || g2 == "should panic".data then .IGNORED
  else .FAILED

/-- `parse_test_output`: split the captured output on newlines and collect
one result per line the regex recognizes. -/
def parse_test_output (output : String) : List TestResult :=
  (splitOnNl output.data).filterMap fun line =>
    match parseResultLine line with
    | none => none
    | some (g1, g2, g3) =>
      let st := statusOfToken g2
      some { test_name := String.mk g1, status := st, duration := 0,
             error_message := if st == TestStatus.FAILED then String.mk g3 else "" }

/-! ###  analyze_failure  -/

/-- The analysis result dictionary of `analyze_failure`. -/
structure Diagnosis where
  error_type : String
  suggestion : String
  fixable : Bool
  deriving BEq, DecidableEq, Repr

/-- Python `str.lower()` (ASCII fragment, which covers every signature). -/
def lowerL (s : List Char) : List Char := s.map Char.toLower

/-- The ordered failure-signature table of `analyze_failure`, in dictionary
insertion order. -/
def failure_patterns : List (String × Diagnosis) := [
  ("assertion failed", ⟨"断言失败", "检查断言条件，确保测试预期与实际行为一致", false⟩),
  ("panicked at", ⟨"Panic", "代码发生 panic，检查是否访问了无效数据或触发了 panic!", false⟩),
  ("attempt to add with overflow", ⟨"算术溢出", "使用 checked_add、wrapping_add 或 saturating_add", true⟩),
  ("borrow checker", ⟨"借用检查错误", "检查所有权和生命周期，可能需要克隆或调整引用", false⟩),
  ("type mismatch", ⟨"类型不匹配", "检查类型注解，可能需要进行类型转换", true⟩),
  ("no such file or directory", ⟨"文件不存在", "确保测试所需的文件存在，或使用临时目录", true⟩),
  ("connection refused", ⟨"连接失败", "确保测试依赖的服务已启动，或使用 mock", false⟩),
  ("timeout", ⟨"测试超时", "优化测试性能或增加超时时间", false⟩)]

/-- The values assigned before the loop and returned when no signature
matches. -/
def defaultDiagnosis : Diagnosis :=
  ⟨"未知错误", "请检查测试代码和实现代码", false⟩

/-- Case-insensitive substring test `pattern.lower() in stderr.lower()`. -/
def sigMatches (sig : String) (stderr : String) : Bool :=
  containsSub (lowerL sig.data) (lowerL stderr.data)

/-- The signature loop of `analyze_failure`: the first match breaks out. -/
def classifyFirst (stderr : String) : List (String × Diagnosis) → Diagnosis
  | [] => defaultDiagnosis
  | p :: ps => if sigMatches p.1 stderr then p.2 else classifyFirst stderr ps

/-- `analyze_failure`: one diagnosis for a failed test (the test name is
accepted and unused, as in the source). -/
def analyze_failure (stderr : String) (test_name : String) : Diagnosis :=
  classifyFirst stderr failure_patterns

/-! ###  run_single_test and the two `main` exit paths  -/

/-- `run_single_test`, given the result of the external invocation: a zero
exit code passes; anything else is a failure annotated by
`analyze_failure`, with the stderr excerpt capped at 500 characters. -/
def run_single_test (test_name : String) (pr : ProcResult) : TestResult :=
  let r := run_command pr 300
  if r.1 == 0 then
    { test_name := test_name, status := TestStatus.PASSED, duration := 0 }
  else
    let analysis := analyze_failure r.2.2 test_name
    { test_name := test_name, status := TestStatus.FAILED, duration := 0,
      error_message := String.mk (r.2.2.data.take 500),
      error_type := analysis.error_type,
      suggestion := analysis.suggestion,
      fixable := analysis.fixable }

/-! ###  format_test_report  -/

/-- The per-failed-test block of the test report. -/
def failedLines (r : TestResult) : List String :=
  ["\n### " ++ r.test_name,
   "- **状态**: " ++ r.status.value,
   "- **错误类型**: " ++ r.error_type,
   "- **建议**: " ++ r.suggestion]
  ++ (if r.fixable then ["- **可自动修复**: ✅ 是"] else [])
  ++ (if r.error_message == "" then []
      else ["\n**错误信息**:", "```", String.mk (r.error_message.data.take 300)]
        ++ (if decide (300 < r.error_message.data.length) then ["..."] else [])
        ++ ["```"])

/-- `format_test_report`: statistics, failed tests with diagnoses, and the
first ten passed test names with an elision counter. -/
def format_test_report (results : List TestResult) : String :=
  let passed := results.filter (fun r => r.status == TestStatus.PASSED)
  let failed := results.filter (fun r => r.status == TestStatus.FAILED)
  let ignored := results.filter (fun r => r.status == TestStatus.IGNORED)
  let stats := ["# Rust 测试报告\n",
                "## 📊 统计\n",
                "- 总测试数: " ++ toString results.length,
                "- ✅ 通过: " ++ toString passed.length,
                "- ❌ 失败: " ++ toString failed.length,
                "- ⚠️  忽略: " ++ toString ignored.length ++ "\n"]
  let failBlock :=
    if failed.isEmpty then []
    else "## ❌ 失败的测试\n" :: (failed.map failedLines).flatten
  let passBlock :=
    if passed.isEmpty then []
    else ("\n## ✅ 通过的测试\n" :: (passed.take 10).map (fun r => "- " ++ r.test_name))
      ++ (if decide (10 < passed.length)
          then ["- ... 还有 " ++ toString (passed.length - 10) ++ " 个测试"]
          else [])
  String.intercalate "\n" (stats ++ failBlock ++ passBlock)

/-- Exit status of the single-test path of `main`: `1` exactly when the
result failed. -/
def single_mode_exit (r : TestResult) : Nat :=
  if r.status == TestStatus.FAILED then 1 else 0

/-- The run-all-tests path of `main`, given the completed invocation:
parses the captured stdout, renders the report, and exits `1` exactly when
the invocation exit code is non-zero. -/
def batch_mode (exit_code : Int) (stdout : String) : List TestResult × String × Nat :=
  let results := parse_test_output stdout
  let report := format_test_report results
  (results, report, if exit_code != 0 then 1 else 0)

/-! ###  Concrete inputs used by the witnesses below  -/

/-- A source line matched by exactly two catalog rules (`unwrap()` and
`parse().unwrap`). -/
def exLineMulti : List Char := "let p = s.parse().unwrap();".data

/-- A pure-comment line whose text matches the `unwrap()` pattern. -/
def exLineComment : List Char := "// let user_id = get_user_id().unwrap();".data

/-- A concrete finding collection. -/
def exIssues : List Issue := check_rust_file "src/lib.rs" [exLineMulti]

/-- A concrete outcome collection. -/
def exResults : List TestResult := parse_test_output "test a ...ok\ntest b ...FAILED"

/-- A stderr text matching only the `panicked at` signature. -/
def exStderrPanic : String := "thread panicked at src/lib.rs:10"

/-- A stderr text containing the overflow signature after the
earlier-declared `panicked at` signature. -/
def exStderrOverflowPanic : String := "thread panicked at: attempt to add with overflow"

/-- A stderr text whose only matching signature is the overflow one. -/
def exStderrOverflowOnly : String := "attempt to add with overflow"

end Scripts

namespace Scripts

/-! ###  Helper lemmas  -/

/-- The rule loop collects exactly the matching rules, in list order. -/
theorem scanPatterns_eq (fp : String) (n : Nat) (line : List Char) :
    ∀ rs : List Rule,
      scanPatterns fp n line rs
        = (rs.filter (fun r => r.matchesLine line)).map (mkIssue fp n line)
  | [] => rfl
  | r :: rs => by
    cases h : r.matchesLine line <;>
      simp [scanPatterns, List.filter_cons, h, scanPatterns_eq fp n line rs]

/-- A filter is empty exactly when no element satisfies the predicate. -/
theorem filter_isEmpty_not_any {α : Type} (p : α → Bool) :
    ∀ l : List α, (l.filter p).isEmpty = !(l.any p)
  | [] => rfl
  | a :: l => by
    cases h : p a <;>
      simp [List.filter_cons, List.any_cons, h, filter_isEmpty_not_any p l]

/-- The break-on-first-match loop agrees with `List.find?`. -/
theorem classifyFirst_eq_find (stderr : String) :
    ∀ l : List (String × Diagnosis),
      classifyFirst stderr l
        = ((l.find? (fun q => sigMatches q.1 stderr)).map Prod.snd).getD defaultDiagnosis
  | [] => rfl
  | p :: ps => by
    cases h : sigMatches p.1 stderr <;>
      simp [classifyFirst, List.find?, h, classifyFirst_eq_find stderr ps]

/-! ###  Claim theorems  -/

/-- C1: the claim (and the docstring of `parse_test_output` itself) states
that a line `test <name> ... <status>` with the status word separated from
the dots by a space — such as `test suite::case1 ... ok` — yields one
outcome; the regex `\.\.\.(\w+)` requires the status word to abut the
dots, so both the claimed example line and the docstring example line
yield no outcome, while only the space-less form parses. -/
theorem C1_spaced_result_line_yields_no_outcome :
    parse_test_output "test suite::case1 ... ok" = []
    ∧ parse_test_output "test test_foo ... ok" = []
    ∧ parse_test_output "test suite::case1 ...ok"
        = [{ test_name := "suite::case1", status := TestStatus.PASSED, duration := 0 }] := by
  refine ⟨by decide, by decide, by decide⟩

/-- C2: an invocation whose external process exceeds the timeout bound is
classified `FAILED`, not `TIMEOUT`; indeed `run_single_test` never
produces the `TIMEOUT` status for any process outcome. -/
theorem C2_timeout_classified_failed_not_timeout :
    (run_single_test "t1" ProcResult.timedOut).status = TestStatus.FAILED
    ∧ (∀ name pr, (run_single_test name pr).status ≠ TestStatus.TIMEOUT) := by
  constructor
  · decide
  · intro name pr
    cases hc : (run_command pr 300).1 == 0 <;> simp [run_single_test, hc]

/-- C3 counterexample: a harness invocation exiting `0` whose captured
output contains a FAILED outcome still makes the batch path exit `0`,
contradicting the claimed if-and-only-if. -/
theorem C3_counterexample_failed_outcome_exit_zero :
    (batch_mode 0 "test t ...FAILED").2.2 = 0
    ∧ (parse_test_output "test t ...FAILED").any
        (fun r => r.status == TestStatus.FAILED || r.status == TestStatus.TIMEOUT) = true := by
  refine ⟨by decide, by decide⟩

/-- C3 amended: the wrapper exit status is non-zero exactly when the
underlying invocation exit code is non-zero, in the batch path and in the
single-test path alike; parsed outcome statuses do not enter the exit
decision. -/
theorem C3_exit_tracks_harness_exit_only (ec : Int) (stdout : String)
    (name : String) (pr : ProcResult) :
    ((batch_mode ec stdout).2.2 ≠ 0 ↔ ec ≠ 0)
    ∧ (single_mode_exit (run_single_test name pr) ≠ 0
        ↔ (run_command pr 300).1 ≠ 0) := by
  constructor
  · unfold batch_mode
    by_cases h : ec = 0 <;> simp [h]
  · have e1 : (TestStatus.FAILED == TestStatus.FAILED) = true := by decide
    have e2 : (TestStatus.PASSED == TestStatus.FAILED) = false := by decide
    cases hc : (run_command pr 300).1 == 0 <;>
      simp [single_mode_exit, run_single_test, hc, e1, e2] <;>
      simpa using hc

/-- C4: the auditor exit status is `1` exactly when some scanned file
yields a HIGH-severity finding, and `0` in every other completed-scan
case, including the no-files case and the only-MEDIUM/LOW case. -/
theorem C4_auditor_exit_one_iff_high (files : List (String × List (List Char))) :
    (auditor_main files = 1
      ↔ (allIssues files).any (fun i => i.severity == Severity.HIGH) = true)
    ∧ (auditor_main files = 0
      ↔ (allIssues files).any (fun i => i.severity == Severity.HIGH) = false) := by
  unfold auditor_main
  cases hf : files.isEmpty with
  | true =>
    have hfe : files = [] := by
      cases files with
      | nil => rfl
      | cons a l => simp at hf
    subst hfe
    simp [allIssues]
  | false =>
    cases h : (allIssues files).any (fun i => i.severity == Severity.HIGH) <;>
      simp [filter_isEmpty_not_any, h]

/-- C5: an eligible line produces exactly the findings of the rules whose
patterns match it, one finding per matching rule, in catalog declaration
order, each finding carrying its rule's severity and category (visible in
`mkIssue`); the finding count equals the number of matching rules. -/
theorem C5_eligible_line_findings_per_rule (fp : String) (n : Nat) (line : List Char)
    (h : eligibleLine line = true) :
    lineIssues fp n line
        = (CHECK_PATTERNS.filter (fun r => r.matchesLine line)).map (mkIssue fp n line)
    ∧ (lineIssues fp n line).length
        = CHECK_PATTERNS.countP (fun r => r.matchesLine line) := by
  have he : lineIssues fp n line = scanPatterns fp n line CHECK_PATTERNS := by
    simp [lineIssues, h]
  rw [he, scanPatterns_eq]
  exact ⟨rfl, by simp [List.countP_eq_length_filter]⟩

/-- Witness for C5 at `let p = s.parse().unwrap();`, a line matched by
exactly two rules (K = 2). -/
theorem C5_eligible_line_findings_per_rule_witness :
    (lineIssues "src/lib.rs" 1 exLineMulti
        = (CHECK_PATTERNS.filter (fun r => r.matchesLine exLineMulti)).map
            (mkIssue "src/lib.rs" 1 exLineMulti)
      ∧ (lineIssues "src/lib.rs" 1 exLineMulti).length
        = CHECK_PATTERNS.countP (fun r => r.matchesLine exLineMulti))
    ∧ (lineIssues "src/lib.rs" 1 exLineMulti).length = 2 :=
  ⟨C5_eligible_line_findings_per_rule "src/lib.rs" 1 exLineMulti (by decide), by decide⟩

/-- C6: a line whose stripped text begins with `//` yields no findings,
whatever patterns occur inside the comment text. -/
theorem C6_comment_line_yields_no_findings (fp : String) (n : Nat) (line : List Char)
    (h : "//".data.isPrefixOf (pyStrip line) = true) :
    lineIssues fp n line = [] := by
  simp [lineIssues, eligibleLine, h]

/-- Witness for C6 at `// let user_id = get_user_id().unwrap();`. -/
theorem C6_comment_line_yields_no_findings_witness :
    "//".data.isPrefixOf (pyStrip exLineComment) = true
    ∧ lineIssues "src/lib.rs" 1 exLineComment = [] :=
  ⟨by decide, C6_comment_line_yields_no_findings "src/lib.rs" 1 exLineComment (by decide)⟩

/-- C7: the classifier is total and returns the diagnosis of the
earliest-declared matching signature (`List.find?` returns the first
match in declaration order), or the default unknown/unfixable diagnosis
when no signature matches. -/
theorem C7_first_declared_signature_wins (stderr tn : String) :
    (∀ sig, failure_patterns.find? (fun q => sigMatches q.1 stderr) = some sig →
        analyze_failure stderr tn = sig.2)
    ∧ (failure_patterns.find? (fun q => sigMatches q.1 stderr) = none →
        analyze_failure stderr tn = defaultDiagnosis) := by
  constructor
  · intro sig hs
    unfold analyze_failure
    rw [classifyFirst_eq_find, hs]
    rfl
  · intro hn
    unfold analyze_failure
    rw [classifyFirst_eq_find, hn]
    rfl

/-- Witness for C7: a stderr matched only by the second-declared
signature. -/
theorem C7_first_declared_signature_wins_witness :
    analyze_failure exStderrPanic "t"
      = ⟨"Panic", "代码发生 panic，检查是否访问了无效数据或触发了 panic!", false⟩ :=
  (C7_first_declared_signature_wins exStderrPanic "t").1
    ("panicked at", ⟨"Panic", "代码发生 panic，检查是否访问了无效数据或触发了 panic!", false⟩)
    (by decide)

/-- C8 counterexample: a stderr containing the overflow substring together
with the earlier-declared `panicked at` signature is diagnosed as a Panic
with fixable = false, falsifying the claimed universal statement. -/
theorem C8_counterexample_panicked_overflow :
    containsSub "attempt to add with overflow".data exStderrOverflowPanic.data = true
    ∧ analyze_failure exStderrOverflowPanic "t"
        = ⟨"Panic", "代码发生 panic，检查是否访问了无效数据或触发了 panic!", false⟩
    ∧ (analyze_failure exStderrOverflowPanic "t").fixable = false := by
  refine ⟨by decide, by decide, by decide⟩

/-- C8 amended: a stderr containing the overflow signature and not
containing either earlier-declared signature (`assertion failed`,
`panicked at`, case-insensitively) is diagnosed as arithmetic overflow
(`算术溢出`) with fixable = true. -/
theorem C8_overflow_diagnosed_when_first_match (stderr tn : String)
    (hov : sigMatches "attempt to add with overflow" stderr = true)
    (h1 : sigMatches "assertion failed" stderr = false)
    (h2 : sigMatches "panicked at" stderr = false) :
    analyze_failure stderr tn
      = ⟨"算术溢出", "使用 checked_add、wrapping_add 或 saturating_add", true⟩ := by
  unfold analyze_failure failure_patterns
  simp [classifyFirst, h1, h2, hov]

/-- Witness for C8 at the bare overflow message. -/
theorem C8_overflow_diagnosed_when_first_match_witness :
    analyze_failure exStderrOverflowOnly "t"
      = ⟨"算术溢出", "使用 checked_add、wrapping_add 或 saturating_add", true⟩ :=
  C8_overflow_diagnosed_when_first_match exStderrOverflowOnly "t"
    (by decide) (by decide) (by decide)

/-- C9: both report builders are pure functions of their input collection:
identical inputs render identical text. -/
theorem C9_reports_deterministic (a b : List Issue) (c d : List TestResult)
    (h1 : a = b) (h2 : c = d) :
    format_report a = format_report b ∧ format_test_report c = format_test_report d := by
  subst h1
  subst h2
  exact ⟨rfl, rfl⟩

/-- Witness for C9 at concrete finding and outcome collections. -/
theorem C9_reports_deterministic_witness :
    format_report exIssues = format_report exIssues
    ∧ format_test_report exResults = format_test_report exResults :=
  C9_reports_deterministic exIssues exIssues exResults exResults rfl rfl

/-- C10: `run_command` always returns a triple, a timeout becomes
`(-1, "", timeout message)`, any other exception becomes
`(-1, "", exception text)`, and a completed process propagates its exit
code and captured output. -/
theorem C10_run_command_total (pr : ProcResult) (t : Nat) :
    (∃ ec out err, run_command pr t = (ec, out, err))
    ∧ run_command ProcResult.timedOut t
        = (-1, "", "Command timed out after " ++ toString t ++ " seconds")
    ∧ (∀ msg, run_command (ProcResult.raised msg) t = (-1, "", msg))
    ∧ (∀ rc out err, run_command (ProcResult.completed rc out err) t = (rc, out, err)) := by
  refine ⟨⟨(run_command pr t).1, (run_command pr t).2.1, (run_command pr t).2.2, rfl⟩,
    rfl, fun msg => rfl, fun rc out err => rfl⟩

end Scripts
